import Mathlib

/-!
Verification development for the duck_transcriber Telegram webhook handler.

The repository is a serverless Rust bot.  This file gives a shallow
embedding of its core logic in Lean: the multi-key failover loop of the
summarization client (src/src/summarize.rs), the Whisper segment
filtering (src/src/transcribe.rs), the DynamoDB cache protocol
(src/src/dynamodb.rs), and the per-request orchestration of
handle_audio_message / handle_summarization / handler
(src/src/main.rs).  External collaborators (Telegram HTTP API, Groq
HTTP API, ffmpeg, the DynamoDB network transport) are modelled as
oracle inputs carried by an environment record; each outbound side
effect of the handlers is recorded in an ordered trace.
-/

namespace DuckTranscriber

/-- Task type discriminator, src/src/transcribe.rs lines 10-16.
The enum has exactly two variants; summaries have no task type. -/
inductive TaskType where
  | Transcribe
  | Translate
deriving DecidableEq, Repr

/-- The strum Display strings of TaskType (cache column names). -/
def TaskType.toStr : TaskType → String
  | .Transcribe => "transcribe"
  | .Translate => "translate"

/-- Summarization persona, src/src/types.rs (SummarizeMethod). -/
inductive SummarizeMethod where
  | Default
  | Caveman
deriving DecidableEq, Repr

/-- Error taxonomy of the summarization client, crate::types::TranscriptionError
as used by src/src/summarize.rs. -/
inductive TranscriptionError where
  | RateLimitReached
  | NetworkError (detail : String)
  | ApiError (detail : String)
  | ParseError (detail : String)
deriving DecidableEq, Repr

deriving instance DecidableEq for Except

/-- Outcome of one chat-completion HTTP exchange as seen by
summarize_with_key (src/src/summarize.rs lines 51-133); the HTTP layer
itself is an external collaborator, so one key's exchange is an oracle
value of this type. -/
inductive ChatHttpOutcome where
  | success (content : String)
  | httpError (code : Option String) (message : Option String)
  | networkError (detail : String)
  | errorBodyUnparsable
  | responseUnparsable
  | badKeyHeader
deriving DecidableEq, Repr

/-- Rust str::trim: drop unicode whitespace from both ends of the
string (all strings in play are ASCII, where char-level trimming agrees
with the source). -/
def rustTrim (s : String) : String :=
  ⟨((s.data.dropWhile Char.isWhitespace).reverse.dropWhile Char.isWhitespace).reverse⟩

/-- Classification done by summarize_with_key, src/src/summarize.rs lines
51-133: a 2xx body yields the trimmed content; a non-2xx body whose error
code is rate_limit_exceeded yields RateLimitReached; any other non-2xx
body yields an ApiError; transport and parse failures yield
NetworkError / ParseError. -/
def summarize_with_key : ChatHttpOutcome → Except TranscriptionError String
  | .success content => .ok (rustTrim content)
  | .httpError code message =>
      if code = some "rate_limit_exceeded" then .error .RateLimitReached
      else .error (.ApiError ("Groq error: " ++ message.getD "unknown error"))
  | .networkError detail => .error (.NetworkError ("Failed to send request: " ++ detail))
  | .errorBodyUnparsable => .error (.ParseError "Failed to parse API error response")
  | .responseUnparsable => .error (.ParseError "Failed to parse API response")
  | .badKeyHeader => .error (.ParseError "Invalid API key format")

/-- The key loop of summarize, src/src/summarize.rs lines 21-45,
parameterised by the accumulated last_error.  The input list holds, in
pool order, the result each key would obtain from summarize_with_key.
The returned Nat counts how many keys were actually tried. -/
def summarizeGo (lastError : Option TranscriptionError) :
    List (Except TranscriptionError String) → Except TranscriptionError String × Nat
  | [] => (.error (lastError.getD (.ApiError "All API keys failed")), 0)
  | keyResult :: rest =>
      match keyResult with
      | .ok result => (.ok result, 1)
      | .error .RateLimitReached =>
          let p := summarizeGo (some .RateLimitReached) rest
          (p.1, p.2 + 1)
      | .error e => (.error e, 1)

/-- summarize, src/src/summarize.rs lines 10-49: an empty key pool is
rejected up front with ApiError "API key not configured"; otherwise the
keys are tried in fixed order. -/
def summarize (keyResults : List (Except TranscriptionError String)) :
    Except TranscriptionError String × Nat :=
  if keyResults.isEmpty then (.error (.ApiError "API key not configured"), 0)
  else summarizeGo none keyResults

/-- One segment of a verbose Whisper response, src/src/transcribe.rs
lines 27-39 (OpenAIWhisperSegment).  Only the fields read by the
filtering loop are carried (text, avg_logprob, no_speech_prob); the
remaining response metadata fields (id, seek, start, end, tokens,
temperature and the compression field) are never read by the code.
The f64 confidence values are embedded as rationals. -/
structure OpenAIWhisperSegment where
  text : String
  avg_logprob : ℚ
  no_speech_prob : ℚ
deriving DecidableEq, Repr

/-- The segment concatenation loop of transcribe, src/src/transcribe.rs
lines 190-200: a segment is skipped when no_speech_prob > 0.6 and
avg_logprob < -0.4, otherwise its text is appended. -/
def segmentsText (segments : List OpenAIWhisperSegment) : String :=
  segments.foldl
    (fun output_text segment =>
      if segment.no_speech_prob > 0.6 ∧ segment.avg_logprob < -0.4 then output_text
      else output_text ++ segment.text)
    ""

/-- End of transcribe, src/src/transcribe.rs lines 202-207: an empty
concatenation yields Ok(None) rather than an error. -/
def collectSegments (segments : List OpenAIWhisperSegment) : Option String :=
  let output_text := segmentsText segments
  if output_text = "" then none else some output_text

/-- Outcome of the Whisper HTTP exchange as seen by transcribe,
src/src/transcribe.rs lines 148-188.  A non-2xx response whose body
fails to parse as JSON makes the code panic (the map_err/unwrap at
lines 163-167 aborts the process); that aborting path produces no HTTP
response and is outside this embedding. -/
inductive WhisperHttpOutcome where
  | success (segments : List OpenAIWhisperSegment)
  | rateLimited
  | apiError (code : String)
  | sendFailure (detail : String)
  | responseUnparsable
deriving DecidableEq, Repr

/-- Result classification of transcribe, src/src/transcribe.rs lines
148-207: the error channel is a plain String; the rate-limit error is
exactly "Rate limit reached." (the comment at line 172 forbids changing
it, since main.rs matches on it by prefix). -/
def transcribeOutcome : WhisperHttpOutcome → Except String (Option String)
  | .success segments => .ok (collectSegments segments)
  | .rateLimited => .error "Rate limit reached."
  | .apiError code => .error ("Groq returned an error: " ++ code)
  | .sendFailure detail => .error ("Failed to send request to OpenAI: " ++ detail)
  | .responseUnparsable => .error "Failed to parse OpenAI response"

/-- Rust str::starts_with as used at src/src/main.rs line 389; the
messages involved are ASCII so the byte prefix test coincides with the
character prefix test. -/
def rustStartsWith (s pattern : String) : Bool :=
  pattern.data.isPrefixOf s.data

/-! ## DynamoDB cache model (src/src/dynamodb.rs, src/src/types.rs) -/

/-- crate::types::DBItem, src/src/types.rs lines 155-160. -/
structure DBItem where
  text : String
  unique_file_id : String
  task_type : String
  expires_at : Int
deriving DecidableEq, Repr

/-- crate::types::ItemReturnInfo, src/src/types.rs lines 162-166. -/
inductive ItemReturnInfo where
  | Text (t : String)
  | Exists
  | None
deriving DecidableEq, Repr

/-- One stored row: partition key id, one string attribute per task
type, and the shared TTL attribute expires_at. -/
structure DBRow where
  id : String
  attrs : List (String × String)
  expires_at : Int
deriving DecidableEq, Repr

/-- The table state, as a list of rows with distinct ids. -/
abbrev Table := List DBRow

/-- Seconds in EXPIRATION_DAYS = 7 days, src/src/dynamodb.rs line 7
(chrono::Duration::days(7) ahead of now, expressed as a unix
timestamp). -/
def EXPIRATION_SECONDS : Int := 7 * 86400

/-- get_item, src/src/dynamodb.rs lines 16-71: query by id (limit 1);
no row at all gives None, a row without the requested task-type
attribute gives Exists, otherwise the stored text. -/
def get_item (table : Table) (unique_file_id : String) (task_type : TaskType) :
    ItemReturnInfo :=
  match table.find? (fun r => r.id == unique_file_id) with
  | Option.none => .None
  | Option.some row =>
      match row.attrs.lookup task_type.toStr with
      | Option.some text => .Text text
      | Option.none => .Exists

/-- Helper for the SET update expression: replace or add one attribute. -/
def setAttr : List (String × String) → String → String → List (String × String)
  | [], k, v => [(k, v)]
  | (k0, v0) :: rest, k, v =>
      if k0 = k then (k, v) :: rest else (k0, v0) :: setAttr rest k v

/-- append_attribute, src/src/dynamodb.rs lines 73-105: an update_item
with SET #task = :text, expires_at = :expires_at, the latter being
now + 7 days.  DynamoDB update_item upserts: a missing row is created. -/
def append_attribute (table : Table) (unique_file_id : String) (task_type : TaskType)
    (text : String) (now : Int) : Table :=
  match table.find? (fun r => r.id == unique_file_id) with
  | Option.some _ =>
      table.map fun r =>
        if r.id == unique_file_id then
          { r with
            attrs := setAttr r.attrs task_type.toStr text,
            expires_at := now + EXPIRATION_SECONDS }
        else r
  | Option.none =>
      table ++ [{ id := unique_file_id,
                  attrs := [(task_type.toStr, text)],
                  expires_at := now + EXPIRATION_SECONDS }]

/-- Store-level failure modes of a DynamoDB write. -/
inductive DynamoError where
  | conditionalCheckFailed
  | transport (detail : String)
deriving DecidableEq, Repr

/-- add_item, src/src/dynamodb.rs lines 107-123: a put_item carrying the
task-type attribute, id and expires_at, with no condition expression.
An unconditional put_item replaces any existing row wholesale and can
never fail a conditional check. -/
def add_item (table : Table) (item : DBItem) : Except DynamoError Table :=
  let newRow : DBRow :=
    { id := item.unique_file_id,
      attrs := [(item.task_type, item.text)],
      expires_at := item.expires_at }
  .ok (match table.find? (fun r => r.id == item.unique_file_id) with
    | Option.some _ => table.map fun r => if r.id == item.unique_file_id then newRow else r
    | Option.none => table ++ [newRow])

/-! ## Inbound messages and audio source resolution (src/src/main.rs) -/

/-- The file metadata shared by the four Telegram media kinds: the
rotating file id, the stable unique id, the duration in seconds and the
size in bytes. -/
structure MediaFile where
  file_id : String
  unique_id : String
  duration : Nat
  size : Nat
deriving DecidableEq, Repr

/-- The slice of a Telegram message the handlers read: optional text,
the four optional media attachments and the optional replied-to
message. -/
inductive Message where
  | mk (text : Option String) (voice : Option MediaFile) (video_note : Option MediaFile)
      (video : Option MediaFile) (audio : Option MediaFile) (reply : Option Message)

def Message.text : Message → Option String
  | .mk t _ _ _ _ _ => t

def Message.voice : Message → Option MediaFile
  | .mk _ v _ _ _ _ => v

def Message.video_note : Message → Option MediaFile
  | .mk _ _ v _ _ _ => v

def Message.video : Message → Option MediaFile
  | .mk _ _ _ v _ _ => v

def Message.audio : Message → Option MediaFile
  | .mk _ _ _ _ a _ => a

def Message.reply_to_message : Message → Option Message
  | .mk _ _ _ _ _ r => r

/-- AudioFileInfo, src/src/main.rs lines 221-227. -/
structure AudioFileInfo where
  file_id : String
  unique_id : String
  duration : Nat
  size : Nat
deriving DecidableEq, Repr

def MediaFile.info (m : MediaFile) : AudioFileInfo :=
  { file_id := m.file_id, unique_id := m.unique_id, duration := m.duration, size := m.size }

/-- AudioFileInfo::from_message, src/src/main.rs lines 229-265: first
match wins, in the order voice, video_note, video, audio. -/
def AudioFileInfo.from_message (message : Message) : Option AudioFileInfo :=
  match message.voice with
  | Option.some v => some v.info
  | Option.none =>
    match message.video_note with
    | Option.some v => some v.info
    | Option.none =>
      match message.video with
      | Option.some v => some v.info
      | Option.none =>
        match message.audio with
        | Option.some a => some a.info
        | Option.none => none

/-- has_audio_content, src/src/main.rs lines 267-272. -/
def has_audio_content (message : Message) : Bool :=
  message.voice.isSome || message.video_note.isSome ||
    message.video.isSome || message.audio.isSome

/-! ## Orchestrator environment and effect traces (src/src/main.rs) -/

/-- MAX_DURATION, src/src/main.rs line 29 (minutes). -/
def MAX_DURATION : Nat := 30

/-- MAX_FILE_SIZE, src/src/main.rs line 30 (MB). -/
def MAX_FILE_SIZE : Nat := 20

/-- Telegram file metadata returned by get_file (only the fields read
at src/src/main.rs lines 596-620). -/
structure TgFile where
  size : Nat
  path : String
deriving DecidableEq, Repr

/-- The outbound side effects a request performs, in order.  A reply
effect records the content handed to safe_send (delivery itself,
including the 4096-character document fallback, is the messaging
platform collaborator). -/
inductive Effect where
  | sendChatAction
  | cacheGet (id : String) (task : TaskType)
  | getFile (file_id : String)
  | downloadFile (file_id : String)
  | runFfmpeg
  | whisperCall (task : TaskType)
  | chatCall (method : SummarizeMethod)
  | reply (text : String)
  | cachePut (item : DBItem)
  | cacheUpdate (id : String) (task : TaskType) (text : String)
deriving DecidableEq, Repr

/-- The external world of one request: the cache table, whether each of
the two DynamoDB reads fails at the transport level, the Telegram
get_file and download_file results, the ffmpeg transcode result, the
Whisper exchange outcome, the per-key chat-completion results, whether
the DynamoDB write fails at the transport level, the current unix time,
and the teloxide markdown escape function. -/
structure Env where
  table : Table
  getItemFails1 : Bool
  getItemFails2 : Bool
  getFile : Except String TgFile
  downloadFile : Except String (List Nat)
  ffmpeg : Except String (List Nat)
  whisper : WhisperHttpOutcome
  keyResults : List (Except TranscriptionError String)
  putFails : Bool
  now : Int
  escape : String → String

/-- An HTTP response of the webhook handler. -/
structure HttpResponse where
  status : Nat
  body : String
deriving DecidableEq, Repr

def ok200 : HttpResponse := { status := 200, body := "" }

/-- The outcome of handling one request: the HTTP response, the ordered
effect trace, and the cache table after the request. -/
structure StepResult where
  response : HttpResponse
  effects : List Effect
  table : Table
deriving Repr

/-- The size error message of src/src/main.rs lines 339-342 (and
612-615); the apostrophe of the source text is spelled via its code
point. -/
def sizeErrorMsg (sizeBytes : Nat) : String :=
  "File can" ++ String.singleton (Char.ofNat 39) ++ "t be larger than " ++
    toString MAX_FILE_SIZE ++ "MB (is " ++ toString (sizeBytes / 1024 / 1024) ++ "MB)"

/-- The duration error message of src/src/main.rs line 371. -/
def durationErrorMsg : String :=
  "Duration is above " ++ toString MAX_DURATION ++ " minutes"

/-- download_audio, src/src/main.rs lines 591-659: get_file, re-check
the authoritative size against the gate, download, transcode to FLAC
via ffmpeg; returns the transcoded bytes, the mime string and the
duration taken from the original AudioFileInfo (line 657).  The first
component records the effects performed. -/
def download_audio (env : Env) (audio_info : AudioFileInfo) :
    List Effect × Except String (List Nat × String × Nat) :=
  match env.getFile with
  | .error e => ([.getFile audio_info.file_id], .error e)
  | .ok file =>
    if file.size > MAX_FILE_SIZE * 1024 * 1024 then
      ([.getFile audio_info.file_id], .error (sizeErrorMsg file.size))
    else
      match env.downloadFile with
      | .error e => ([.getFile audio_info.file_id, .downloadFile audio_info.file_id], .error e)
      | .ok _bytes =>
        match env.ffmpeg with
        | .error _ =>
            ([.getFile audio_info.file_id, .downloadFile audio_info.file_id, .runFfmpeg],
              .error "FFmpeg conversion failed")
        | .ok flac =>
            ([.getFile audio_info.file_id, .downloadFile audio_info.file_id, .runFfmpeg],
              .ok (flac, "audio/flac", audio_info.duration))

/-- The cache population step of src/src/main.rs lines 425-447 combined
with src/src/dynamodb.rs: re-read the row; only Ok(Exists) chooses
append_attribute (update in place, TTL refreshed to now + 7 days);
every other outcome (Ok(Text), Ok(None) and a failed read) chooses
add_item.  Returns the new table and the write effect performed.  The
inserted item's expires_at follows the same now + 7 days convention
(types.rs DBItem carries the TTL for add_item). -/
def smart_put (table : Table) (readFails : Bool) (unique_id : String)
    (task_type : TaskType) (text : String) (now : Int) : Table × Effect :=
  let item : DBItem :=
    { text := text, unique_file_id := unique_id, task_type := task_type.toStr,
      expires_at := now + EXPIRATION_SECONDS }
  let lookup : Option ItemReturnInfo :=
    if readFails then none else some (get_item table unique_id task_type)
  match lookup with
  | Option.some .Exists =>
      (append_attribute table unique_id task_type text now,
        .cacheUpdate unique_id task_type text)
  | _ =>
      ((add_item table item).toOption.getD table, .cachePut item)

/-- The reply-and-populate tail of handle_audio_message, src/src/main.rs
lines 405-452: trim the transcription (defaulting to the no-text
sentinel), reply with it, then run the cache population of lines
425-447.  A DynamoDB write that fails at the transport level is logged
and otherwise ignored (the table is then left unchanged), and the
response is 200 regardless. -/
def populateStage (env : Env) (audio_info : AudioFileInfo) (task_type : TaskType)
    (transcriptionOpt : Option String) (effs : List Effect) : StepResult :=
  let transcription := rustTrim (transcriptionOpt.getD "<no text>")
  let sp := smart_put env.table env.getItemFails2 audio_info.unique_id
    task_type transcription env.now
  { response := ok200, effects := effs ++ [.reply transcription] ++ [sp.2],
    table := if env.putFails then env.table else sp.1 }

/-- The transcription step of handle_audio_message, src/src/main.rs
lines 381-408: call the Whisper client; a rate-limit error answers 429
with no reply, any other error answers 200 with an error reply, a
success continues into the reply-and-populate tail. -/
def transcribeStage (env : Env) (audio_info : AudioFileInfo) (task_type : TaskType)
    (effs : List Effect) : StepResult :=
  let eff2 := effs ++ [.whisperCall task_type]
  match transcribeOutcome env.whisper with
  | .error e =>
    if rustStartsWith e "Rate limit reached." then
      { response := { status := 429, body := "Rate limit reached" },
        effects := eff2, table := env.table }
    else
      { response := ok200, effects := eff2 ++ [.reply ("Error: " ++ e)],
        table := env.table }
  | .ok transcriptionOpt =>
      populateStage env audio_info task_type transcriptionOpt eff2

/-- The gate-and-acquire middle of handle_audio_message, src/src/main.rs
lines 333-379: size gate, then download and transcode, then the
duration gate, each failure replying and answering 200. -/
def gateStage (env : Env) (audio_info : AudioFileInfo) (task_type : TaskType)
    (effs : List Effect) : StepResult :=
  if audio_info.size > MAX_FILE_SIZE * 1024 * 1024 then
    { response := ok200, effects := effs ++ [.reply (sizeErrorMsg audio_info.size)],
      table := env.table }
  else
    match download_audio env audio_info with
    | (dlEffs, .error e) =>
        { response := ok200, effects := effs ++ dlEffs ++ [.reply ("Error: " ++ e)],
          table := env.table }
    | (dlEffs, .ok (_flac, _mime, duration)) =>
      if duration > MAX_DURATION * 60 then
        { response := ok200, effects := effs ++ dlEffs ++ [.reply durationErrorMsg],
          table := env.table }
      else
        transcribeStage env audio_info task_type (effs ++ dlEffs)

/-- handle_audio_message, src/src/main.rs lines 274-453: typing
indicator, audio source resolution, cache lookup (a hit replies with
the stored text and stops; Exists, None and a failed read all
continue), then the gate, transcription and population stages above. -/
def handle_audio_message (env : Env) (message : Message) (task_type : TaskType) :
    StepResult :=
  match AudioFileInfo.from_message message with
  | Option.none =>
      { response := ok200, effects := [.sendChatAction], table := env.table }
  | Option.some audio_info =>
    match (if env.getItemFails1 then none
      else some (get_item env.table audio_info.unique_id task_type) :
        Option ItemReturnInfo) with
    | Option.some (.Text transcription) =>
        { response := ok200,
          effects := [.sendChatAction, .cacheGet audio_info.unique_id task_type,
            .reply transcription],
          table := env.table }
    | _ =>
        gateStage env audio_info task_type
          [.sendChatAction, .cacheGet audio_info.unique_id task_type]

/-- Stand-in for the Display rendering of TranscriptionError used by
the "Error: {e}" replies; the claims never inspect these strings. -/
def TranscriptionError.render : TranscriptionError → String
  | .RateLimitReached => "Rate limit reached"
  | .NetworkError detail => detail
  | .ApiError detail => detail
  | .ParseError detail => detail

/-- Tail of handle_summarization, src/src/main.rs lines 562-588: call
the multi-key summarize client on the translation, reply with the
italicised escaped summary on success, with the error text on failure;
every branch answers HTTP 200. -/
def summarizeStep (env : Env) (method : SummarizeMethod) (_translation : String)
    (effs : List Effect) (table : Table) : StepResult :=
  let eff2 := effs ++ [.chatCall method]
  match (summarize env.keyResults).1 with
  | .error e =>
      { response := ok200, effects := eff2 ++ [.reply ("Error: " ++ e.render)],
        table := table }
  | .ok summary =>
      { response := ok200,
        effects := eff2 ++ [.reply ("_" ++ env.escape summary ++ "_")],
        table := table }

/-- The cache-miss continuation of handle_summarization, src/src/main.rs
lines 498-559: size gate (no duration gate exists here), download and
transcode, translate, cache the fresh translation with a bare add_item
(lines 532-541; a transport failure of that write is logged and
ignored), then summarize; a sentinel Ok(None) and every error reply
and answer 200. -/
def summarizeAcquireStage (env : Env) (audio_info : AudioFileInfo)
    (method : SummarizeMethod) (effs : List Effect) : StepResult :=
  if audio_info.size > MAX_FILE_SIZE * 1024 * 1024 then
    { response := ok200, effects := effs ++ [.reply (sizeErrorMsg audio_info.size)],
      table := env.table }
  else
    match download_audio env audio_info with
    | (dlEffs, .error e) =>
        { response := ok200, effects := effs ++ dlEffs ++ [.reply ("Error: " ++ e)],
          table := env.table }
    | (dlEffs, .ok _) =>
      match transcribeOutcome env.whisper with
      | .ok (Option.some translation) =>
          summarizeStep env method translation
            (effs ++ dlEffs ++ [.whisperCall .Translate] ++
              [.cachePut
                { text := translation, unique_file_id := audio_info.unique_id,
                  task_type := TaskType.Translate.toStr,
                  expires_at := env.now + EXPIRATION_SECONDS }])
            (if env.putFails then env.table
              else (add_item env.table
                { text := translation, unique_file_id := audio_info.unique_id,
                  task_type := TaskType.Translate.toStr,
                  expires_at := env.now + EXPIRATION_SECONDS }).toOption.getD env.table)
      | .ok Option.none =>
          { response := ok200,
            effects := effs ++ dlEffs ++ [.whisperCall .Translate] ++
              [.reply "No text found in audio"],
            table := env.table }
      | .error e =>
          { response := ok200,
            effects := effs ++ dlEffs ++ [.whisperCall .Translate] ++
              [.reply ("Error: " ++ e)],
            table := env.table }

/-- handle_summarization, src/src/main.rs lines 455-589: look up the
cached translation; on a hit summarize it directly; on a miss (or a
failed read) run the acquire stage above.  Note that no branch stores
the summary, and every branch, including a rate-limited transcription
or summarization, answers HTTP 200. -/
def handle_summarization (env : Env) (message : Message) (method : SummarizeMethod) :
    StepResult :=
  match AudioFileInfo.from_message message with
  | Option.none =>
      { response := ok200, effects := [.sendChatAction], table := env.table }
  | Option.some audio_info =>
    match (if env.getItemFails1 then none
      else some (get_item env.table audio_info.unique_id .Translate) :
        Option ItemReturnInfo) with
    | Option.some (.Text translation) =>
        summarizeStep env method translation
          [.sendChatAction, .cacheGet audio_info.unique_id .Translate] env.table
    | _ =>
        summarizeAcquireStage env audio_info method
          [.sendChatAction, .cacheGet audio_info.unique_id .Translate]

/-! ## Command routing (src/src/main.rs lines 35-52, 87-219) -/

/-- BotCommand, src/src/main.rs lines 35-52. -/
inductive BotCommand where
  | Help
  | Start
  | Transcribe
  | Translate
  | Summarize
  | Caveman
  | Privacy
deriving DecidableEq, Repr

/-- handle_command, src/src/main.rs lines 127-219.  The reply-triggered
media commands accept any message passing has_audio_content; the
informational commands reply with fixed text (the exact wording of the
help, start and privacy texts is immaterial to the claims). -/
def handle_command (env : Env) (message : Message) (command : BotCommand) : StepResult :=
  match command with
  | .Help =>
      { response := ok200, effects := [.reply "help text"], table := env.table }
  | .Start =>
      { response := ok200, effects := [.reply "welcome text"], table := env.table }
  | .Translate =>
      match message.reply_to_message with
      | Option.some replyMsg =>
          if has_audio_content replyMsg then
            handle_audio_message env replyMsg .Translate
          else
            { response := ok200,
              effects := [.reply "Reply to an audio message or video note to translate it."],
              table := env.table }
      | Option.none =>
          { response := ok200,
            effects := [.reply "Reply to an audio message or video note to translate it."],
            table := env.table }
  | .Transcribe =>
      match message.reply_to_message with
      | Option.some replyMsg =>
          if has_audio_content replyMsg then
            handle_audio_message env replyMsg .Transcribe
          else
            { response := ok200,
              effects := [.reply "Reply to an audio message or video note to transcribe it."],
              table := env.table }
      | Option.none =>
          { response := ok200,
            effects := [.reply "Reply to an audio message or video note to transcribe it."],
            table := env.table }
  | .Summarize =>
      match message.reply_to_message with
      | Option.some replyMsg =>
          if has_audio_content replyMsg then
            handle_summarization env replyMsg .Default
          else
            { response := ok200,
              effects := [.reply "Reply to an audio message or video note to summarize it."],
              table := env.table }
      | Option.none =>
          { response := ok200,
            effects := [.reply "Reply to an audio message or video note to summarize it."],
            table := env.table }
  | .Caveman =>
      match message.reply_to_message with
      | Option.some replyMsg =>
          if has_audio_content replyMsg then
            handle_summarization env replyMsg .Caveman
          else
            { response := ok200,
              effects :=
                [.reply "Reply to an audio message or video note to summarize it like a caveman."],
              table := env.table }
      | Option.none =>
          { response := ok200,
            effects :=
              [.reply "Reply to an audio message or video note to summarize it like a caveman."],
            table := env.table }
  | .Privacy =>
      { response := ok200, effects := [.reply "privacy policy text"], table := env.table }

/-- handler, src/src/main.rs lines 87-125, for an update that parsed as
a message: a command (successfully parsed from the message text by
teloxide, hence supplied as an input here) is dispatched to
handle_command; otherwise a voice note or video note triggers
handle_audio_message with TaskType::Transcribe; anything else is
acknowledged with an empty 200 and no processing. -/
def handler (env : Env) (message : Message) (command : Option BotCommand) : StepResult :=
  match message.text, command with
  | Option.some _, Option.some c => handle_command env message c
  | _, _ =>
    if message.voice.isSome || message.video_note.isSome then
      handle_audio_message env message .Transcribe
    else
      { response := ok200, effects := [], table := env.table }

/-! ## Lemmas about the failover key loop -/

theorem summarizeGo_first_success (pre rest : List (Except TranscriptionError String))
    (r : String) (lastError : Option TranscriptionError)
    (h : ∀ o ∈ pre, o = .error .RateLimitReached) :
    summarizeGo lastError (pre ++ .ok r :: rest) = (.ok r, pre.length + 1) := by
  induction pre generalizing lastError with
  | nil => simp [summarizeGo]
  | cons o tl ih =>
    have ho : o = .error .RateLimitReached := h o (List.mem_cons_self o tl)
    subst ho
    have h2 := ih (some .RateLimitReached) (fun x hx => h x (List.mem_cons_of_mem _ hx))
    simp [summarizeGo, h2]

theorem summarizeGo_stop (pre rest : List (Except TranscriptionError String))
    (e : TranscriptionError) (lastError : Option TranscriptionError)
    (h : ∀ o ∈ pre, o = .error .RateLimitReached) (hne : e ≠ .RateLimitReached) :
    summarizeGo lastError (pre ++ .error e :: rest) = (.error e, pre.length + 1) := by
  induction pre generalizing lastError with
  | nil =>
    cases e with
    | RateLimitReached => exact absurd rfl hne
    | NetworkError d => simp [summarizeGo]
    | ApiError d => simp [summarizeGo]
    | ParseError d => simp [summarizeGo]
  | cons o tl ih =>
    have ho : o = .error .RateLimitReached := h o (List.mem_cons_self o tl)
    subst ho
    have h2 := ih (some .RateLimitReached) (fun x hx => h x (List.mem_cons_of_mem _ hx))
    simp [summarizeGo, h2]

theorem summarizeGo_all_rate_limited (ks : List (Except TranscriptionError String))
    (lastError : Option TranscriptionError) (hne : ks ≠ [])
    (h : ∀ o ∈ ks, o = .error .RateLimitReached) :
    summarizeGo lastError ks = (.error .RateLimitReached, ks.length) := by
  induction ks generalizing lastError with
  | nil => exact absurd rfl hne
  | cons o tl ih =>
    have ho : o = .error .RateLimitReached := h o (List.mem_cons_self o tl)
    subst ho
    by_cases htl : tl = []
    · subst htl
      simp [summarizeGo]
    · have h2 := ih (some .RateLimitReached) htl
        (fun x hx => h x (List.mem_cons_of_mem _ hx))
      simp [summarizeGo, h2]

/-- C4: the failover client iterates the API key pool in fixed order and
returns immediately on the first success without trying further keys,
moving to the next key only on a rate-limit error: with every key before
position i rate-limited and key i succeeding with r, the result is r and
exactly i + 1 keys are tried (so for a 3-key pool with key 1 rate-limited
and key 2 succeeding, the result is key 2 response and key 3 is never
called). -/
theorem failover_first_success (pre rest : List (Except TranscriptionError String))
    (r : String) (h : ∀ o ∈ pre, o = .error .RateLimitReached) :
    summarize (pre ++ .ok r :: rest) = (.ok r, pre.length + 1) := by
  unfold summarize
  rw [if_neg (by simp)]
  exact summarizeGo_first_success pre rest r none h

/-- Witness for C4: the 3-key pool of the claim, key 1 rate-limited,
key 2 succeeding with "two"; only 2 of the 3 keys are tried. -/
theorem failover_first_success_witness :
    (∀ o ∈ ([.error .RateLimitReached] : List (Except TranscriptionError String)),
        o = .error .RateLimitReached) ∧
    summarize [.error .RateLimitReached, .ok "two", .ok "three"] = (.ok "two", 2) ∧
    2 < 3 :=
  ⟨by decide,
    failover_first_success [.error .RateLimitReached] [.ok "three"] "two" (by decide),
    by decide⟩

/-- C5 counterexample: on the empty key pool, summarize returns
ApiError "API key not configured" (rejected before the loop), not the
generic all-keys-failed error the claim describes; the code's
"All API keys failed" fallback is never the empty-pool result. -/
theorem failover_empty_pool_counterexample :
    summarize [] = (.error (.ApiError "API key not configured"), 0) ∧
    summarize [] ≠ (.error (.ApiError "All API keys failed"), 0) := by
  constructor
  · rfl
  · decide

/-- C5 as amended: on any non-rate-limit error the failover client stops
without trying the remaining keys and surfaces that key's error; if
every key is exhausted without success the last recorded error (always
RateLimitReached, the only continuing kind) is returned; an empty pool
yields ApiError "API key not configured", rejected before any key is
tried. -/
theorem failover_error_policy :
    (∀ (pre rest : List (Except TranscriptionError String)) (e : TranscriptionError),
      (∀ o ∈ pre, o = .error .RateLimitReached) → e ≠ .RateLimitReached →
      summarize (pre ++ .error e :: rest) = (.error e, pre.length + 1)) ∧
    (∀ ks : List (Except TranscriptionError String), ks ≠ [] →
      (∀ o ∈ ks, o = .error .RateLimitReached) →
      summarize ks = (.error .RateLimitReached, ks.length)) ∧
    summarize [] = (.error (.ApiError "API key not configured"), 0) := by
  refine ⟨?_, ?_, rfl⟩
  · intro pre rest e h hne
    unfold summarize
    rw [if_neg (by simp)]
    exact summarizeGo_stop pre rest e none h hne
  · intro ks hne h
    unfold summarize
    rw [if_neg (by simpa using hne)]
    exact summarizeGo_all_rate_limited ks none hne h

/-- Witness for C5 as amended: a 3-key pool where key 1 returns an auth
error; no further keys are tried and the surfaced error is key 1's. -/
theorem failover_error_policy_witness :
    summarize [.error (.ApiError "auth"), .ok "x", .ok "y"] =
      (.error (.ApiError "auth"), 1) :=
  failover_error_policy.1 [] [.ok "x", .ok "y"] (.ApiError "auth")
    (by decide) (by decide)

/-! ## Lemmas about segment filtering -/

/-- The keep side of the discard test of src/src/transcribe.rs line 196,
used to state C6: a segment survives unless no_speech_prob > 0.6 and
avg_logprob < -0.4 both hold. -/
def keepSegment (s : OpenAIWhisperSegment) : Bool :=
  !(decide (s.no_speech_prob > 0.6) && decide (s.avg_logprob < -0.4))

/-- Concatenation of segment texts in list order. -/
def textConcat : List OpenAIWhisperSegment → String
  | [] => ""
  | s :: rest => s.text ++ textConcat rest

theorem segmentsText_go (segments : List OpenAIWhisperSegment) (acc : String) :
    segments.foldl
      (fun output_text segment =>
        if segment.no_speech_prob > 0.6 ∧ segment.avg_logprob < -0.4 then output_text
        else output_text ++ segment.text) acc
      = acc ++ textConcat (segments.filter keepSegment) := by
  induction segments generalizing acc with
  | nil => simp [textConcat, String.append_empty]
  | cons s rest ih =>
    by_cases h : s.no_speech_prob > 0.6 ∧ s.avg_logprob < -0.4
    · rw [List.foldl_cons, if_pos h, ih]
      have hk : keepSegment s = false := by
        simp [keepSegment, h.1, h.2]
      rw [List.filter_cons, hk]
      simp
    · rw [List.foldl_cons, if_neg h, ih]
      have hk : keepSegment s = true := by
        simp [keepSegment]
        rcases not_and_or.mp h with h1 | h1
        · exact Or.inl (not_lt.mp h1)
        · exact Or.inr (not_lt.mp h1)
      rw [List.filter_cons, hk]
      simp [textConcat, String.append_assoc]

theorem segmentsText_eq (segments : List OpenAIWhisperSegment) :
    segmentsText segments = textConcat (segments.filter keepSegment) := by
  have := segmentsText_go segments ""
  simpa [segmentsText, String.empty_append] using this

/-- C6: the transcription text discards exactly those segments with
no_speech_prob > 0.6 and avg_logprob < -0.4 (both conditions required:
a segment at 0.7 and -0.5 is dropped, one at 0.7 and -0.1 is kept) and
concatenates the surviving segments in original order; when every
segment is dropped the result is Ok(None) — the no-text sentinel, not
an error — which the orchestrator renders as "<no text>". -/
theorem segment_filtering :
    (∀ segments, segmentsText segments = textConcat (segments.filter keepSegment)) ∧
    (∀ s : OpenAIWhisperSegment,
      keepSegment s = false ↔ (s.no_speech_prob > 0.6 ∧ s.avg_logprob < -0.4)) ∧
    (∀ segments, (∀ s ∈ segments, keepSegment s = false) →
      transcribeOutcome (.success segments) = .ok Option.none) ∧
    (∀ s : OpenAIWhisperSegment, s.no_speech_prob = 0.7 → s.avg_logprob = -0.5 →
      keepSegment s = false) ∧
    (∀ s : OpenAIWhisperSegment, s.no_speech_prob = 0.7 → s.avg_logprob = -0.1 →
      keepSegment s = true) ∧
    (rustTrim (Option.none.getD "<no text>" : String) = "<no text>") := by
  refine ⟨segmentsText_eq, ?_, ?_, ?_, ?_, by decide⟩
  · intro s
    simp [keepSegment]
  · intro segments h
    have hfilter : segments.filter keepSegment = [] := by
      rw [List.filter_eq_nil_iff]
      intro s hs
      simp [h s hs]
    simp [transcribeOutcome, collectSegments, segmentsText_eq, hfilter, textConcat]
  · intro s h1 h2
    unfold keepSegment
    rw [h1, h2, decide_eq_true (by norm_num : ((0.7 : ℚ) > 0.6)),
      decide_eq_true (by norm_num : ((-0.5 : ℚ) < -0.4))]
    rfl
  · intro s h1 h2
    unfold keepSegment
    rw [h1, h2, decide_eq_true (by norm_num : ((0.7 : ℚ) > 0.6)),
      decide_eq_false (by norm_num : ¬ ((-0.1 : ℚ) < -0.4))]
    rfl

/-- Witness for C6: a response with one dropped segment (0.7 and -0.5),
one kept segment (0.7 and -0.1) and one ordinary segment concatenates the
two survivors in order, and an all-dropped response yields Ok(None). -/
theorem segment_filtering_witness :
    segmentsText
      [{ text := "a", avg_logprob := -0.5, no_speech_prob := 0.7 },
       { text := "b", avg_logprob := -0.1, no_speech_prob := 0.7 },
       { text := "c", avg_logprob := -0.2, no_speech_prob := 0.1 }] = "bc" ∧
    keepSegment { text := "a", avg_logprob := -0.5, no_speech_prob := 0.7 } = false ∧
    keepSegment { text := "b", avg_logprob := -0.1, no_speech_prob := 0.7 } = true ∧
    transcribeOutcome (.success [{ text := "a", avg_logprob := -0.5, no_speech_prob := 0.7 }]) =
      .ok Option.none := by
  have ka : keepSegment { text := "a", avg_logprob := -0.5, no_speech_prob := 0.7 } = false :=
    segment_filtering.2.2.2.1 _ rfl rfl
  have kb : keepSegment { text := "b", avg_logprob := -0.1, no_speech_prob := 0.7 } = true :=
    segment_filtering.2.2.2.2.1 _ rfl rfl
  have kc : keepSegment { text := "c", avg_logprob := -0.2, no_speech_prob := 0.1 } = true := by
    unfold keepSegment
    rw [decide_eq_false (by norm_num : ¬ ((0.1 : ℚ) > 0.6))]
    rfl
  refine ⟨?_, ka, kb, ?_⟩
  · rw [segment_filtering.1]
    simp only [List.filter_cons, ka, kb, kc, List.filter_nil]
    simp [textConcat]
  · refine segment_filtering.2.2.1 _ ?_
    intro s hs
    simp only [List.mem_singleton] at hs
    subst hs
    exact ka

/-! ## Classifying the rate-limit prefix test -/

theorem rustStartsWith_append_false (a pattern : String)
    (hlen : pattern.data.length ≤ a.data.length)
    (hpre : pattern.data.isPrefixOf a.data = false) :
    ∀ c : String, rustStartsWith (a ++ c) pattern = false := by
  intro c
  unfold rustStartsWith
  rw [String.data_append, Bool.eq_false_iff]
  intro htrue
  have h2 : pattern.data <+: a.data ++ c.data := List.isPrefixOf_iff_prefix.mp htrue
  have h3 : pattern.data = (a.data ++ c.data).take pattern.data.length :=
    List.prefix_iff_eq_take.mp h2
  rw [List.take_append_of_le_length hlen] at h3
  have h4 : pattern.data <+: a.data := List.prefix_iff_eq_take.mpr h3
  have h5 := List.isPrefixOf_iff_prefix.mpr h4
  rw [hpre] at h5
  simp at h5

theorem groq_error_not_rate_limit (code : String) :
    rustStartsWith ("Groq returned an error: " ++ code) "Rate limit reached." = false :=
  rustStartsWith_append_false _ _ (by decide) (by decide) code

theorem send_failure_not_rate_limit (detail : String) :
    rustStartsWith ("Failed to send request to OpenAI: " ++ detail)
      "Rate limit reached." = false :=
  rustStartsWith_append_false _ _ (by decide) (by decide) detail

/-- The prefix test at src/src/main.rs line 389 singles out exactly the
rate-limited Whisper exchange: no other error string produced by
transcribe starts with "Rate limit reached.". -/
theorem transcribe_rate_limit_iff (w : WhisperHttpOutcome) (e : String)
    (h : transcribeOutcome w = .error e) :
    (rustStartsWith e "Rate limit reached." = true ↔ w = .rateLimited) := by
  cases w with
  | success segments => simp [transcribeOutcome] at h
  | rateLimited =>
      simp only [transcribeOutcome, Except.error.injEq] at h
      subst h
      simp [show rustStartsWith "Rate limit reached." "Rate limit reached." = true by decide]
  | apiError code =>
      simp only [transcribeOutcome, Except.error.injEq] at h
      subst h
      simp [groq_error_not_rate_limit]
  | sendFailure detail =>
      simp only [transcribeOutcome, Except.error.injEq] at h
      subst h
      simp [send_failure_not_rate_limit]
  | responseUnparsable =>
      simp only [transcribeOutcome, Except.error.injEq] at h
      subst h
      simp [show rustStartsWith "Failed to parse OpenAI response"
        "Rate limit reached." = false by decide]

/-! ## Shape lemmas about the stages -/

theorem download_audio_effect_shape (env : Env) (audio_info : AudioFileInfo) :
    ∀ e ∈ (download_audio env audio_info).1,
      e = .getFile audio_info.file_id ∨ e = .downloadFile audio_info.file_id ∨
        e = .runFfmpeg := by
  intro e he
  unfold download_audio at he
  split at he <;> first
    | (simp at he; simp [he])
    | (split at he <;> first
        | (simp at he; simp [he])
        | (split at he <;> first
            | (simp at he; rcases he with h | h <;> simp [h])
            | (split at he <;> (simp at he; rcases he with h | h | h <;> simp [h]))))

theorem download_audio_duration (env : Env) (audio_info : AudioFileInfo)
    (flac : List Nat) (mime : String) (duration : Nat)
    (h : (download_audio env audio_info).2 = .ok (flac, mime, duration)) :
    duration = audio_info.duration := by
  unfold download_audio at h
  split at h
  · simp at h
  · split at h
    · simp at h
    · split at h
      · simp at h
      · split at h
        · simp at h
        · simp at h
          exact h.2.2.symm

theorem whisperCall_not_download (env : Env) (audio_info : AudioFileInfo) (t : TaskType) :
    Effect.whisperCall t ∉ (download_audio env audio_info).1 := by
  intro hmem
  rcases download_audio_effect_shape env audio_info _ hmem with h | h | h <;> simp at h

theorem transcribeStage_status_429_iff (env : Env) (audio_info : AudioFileInfo)
    (task_type : TaskType) (effs : List Effect) :
    ((transcribeStage env audio_info task_type effs).response.status = 429 ↔
      env.whisper = .rateLimited) := by
  unfold transcribeStage
  cases hw : transcribeOutcome env.whisper with
  | error e =>
      have hiff := transcribe_rate_limit_iff env.whisper e hw
      by_cases hs : rustStartsWith e "Rate limit reached." = true
      · simp only [hs, if_true]
        simp [hiff.mp hs]
      · rw [Bool.not_eq_true] at hs
        simp only [hs]
        simp only [Bool.false_eq_true, if_false]
        constructor
        · intro h
          exact absurd h (by simp [ok200])
        · intro h
          rw [← hiff] at h
          rw [hs] at h
          simp at h
  | ok transcriptionOpt =>
      simp only [populateStage]
      constructor
      · intro h
        simp [ok200] at h
      · intro h
        rw [h] at hw
        simp [transcribeOutcome] at hw

theorem transcribeStage_whisperCall_mem (env : Env) (audio_info : AudioFileInfo)
    (task_type : TaskType) (effs : List Effect) :
    Effect.whisperCall task_type ∈ (transcribeStage env audio_info task_type effs).effects := by
  unfold transcribeStage
  split
  · split <;> simp
  · simp [populateStage]

theorem transcribeStage_status_cases (env : Env) (audio_info : AudioFileInfo)
    (task_type : TaskType) (effs : List Effect) :
    (transcribeStage env audio_info task_type effs).response.status = 200 ∨
      (transcribeStage env audio_info task_type effs).response.status = 429 := by
  unfold transcribeStage
  split
  · split
    · right; rfl
    · left; rfl
  · left; rfl

theorem whisperCall_not_mem_of_dl (env : Env) (audio_info : AudioFileInfo)
    (dlEffs : List Effect) (res : Except String (List Nat × String × Nat))
    (heq : download_audio env audio_info = (dlEffs, res)) (t : TaskType) :
    Effect.whisperCall t ∉ dlEffs := by
  have h := whisperCall_not_download env audio_info t
  rw [heq] at h
  exact h

theorem gateStage_429_iff (env : Env) (audio_info : AudioFileInfo) (task_type : TaskType)
    (effs : List Effect) (hnw : ∀ t, Effect.whisperCall t ∉ effs) :
    ((gateStage env audio_info task_type effs).response.status = 429 ↔
      (Effect.whisperCall task_type ∈ (gateStage env audio_info task_type effs).effects ∧
        env.whisper = .rateLimited)) := by
  unfold gateStage
  split
  · constructor
    · intro h; simp [ok200] at h
    · rintro ⟨hmem, _⟩
      simp at hmem
      exact absurd hmem (hnw _)
  · split
    · rename_i dlEffs e heq
      constructor
      · intro h; simp [ok200] at h
      · rintro ⟨hmem, _⟩
        simp at hmem
        rcases hmem with hmem | hmem
        · exact absurd hmem (hnw _)
        · exact absurd hmem (whisperCall_not_mem_of_dl env audio_info dlEffs _ heq _)
    · rename_i dlEffs flac mime duration heq
      split
      · constructor
        · intro h; simp [ok200] at h
        · rintro ⟨hmem, _⟩
          simp at hmem
          rcases hmem with hmem | hmem
          · exact absurd hmem (hnw _)
          · exact absurd hmem (whisperCall_not_mem_of_dl env audio_info dlEffs _ heq _)
      · simp [transcribeStage_status_429_iff, transcribeStage_whisperCall_mem]

theorem handle_audio_message_eq_none (env : Env) (message : Message) (task_type : TaskType)
    (h : AudioFileInfo.from_message message = none) :
    handle_audio_message env message task_type =
      { response := ok200, effects := [.sendChatAction], table := env.table } := by
  unfold handle_audio_message
  rw [h]

theorem handle_audio_message_eq_hit (env : Env) (message : Message) (task_type : TaskType)
    (audio_info : AudioFileInfo) (stored : String)
    (hinfo : AudioFileInfo.from_message message = some audio_info)
    (hread : env.getItemFails1 = false)
    (hhit : get_item env.table audio_info.unique_id task_type = .Text stored) :
    handle_audio_message env message task_type =
      { response := ok200,
        effects := [.sendChatAction, .cacheGet audio_info.unique_id task_type,
          .reply stored],
        table := env.table } := by
  unfold handle_audio_message
  rw [hinfo]
  simp [hread, hhit]

theorem handle_audio_message_eq_readfail (env : Env) (message : Message)
    (task_type : TaskType) (audio_info : AudioFileInfo)
    (hinfo : AudioFileInfo.from_message message = some audio_info)
    (hread : env.getItemFails1 = true) :
    handle_audio_message env message task_type =
      gateStage env audio_info task_type
        [.sendChatAction, .cacheGet audio_info.unique_id task_type] := by
  unfold handle_audio_message
  rw [hinfo]
  simp [hread]

theorem handle_audio_message_eq_exists (env : Env) (message : Message)
    (task_type : TaskType) (audio_info : AudioFileInfo)
    (hinfo : AudioFileInfo.from_message message = some audio_info)
    (hread : env.getItemFails1 = false)
    (hex : get_item env.table audio_info.unique_id task_type = .Exists) :
    handle_audio_message env message task_type =
      gateStage env audio_info task_type
        [.sendChatAction, .cacheGet audio_info.unique_id task_type] := by
  unfold handle_audio_message
  rw [hinfo]
  simp [hread, hex]

theorem handle_audio_message_eq_absent (env : Env) (message : Message)
    (task_type : TaskType) (audio_info : AudioFileInfo)
    (hinfo : AudioFileInfo.from_message message = some audio_info)
    (hread : env.getItemFails1 = false)
    (habs : get_item env.table audio_info.unique_id task_type = .None) :
    handle_audio_message env message task_type =
      gateStage env audio_info task_type
        [.sendChatAction, .cacheGet audio_info.unique_id task_type] := by
  unfold handle_audio_message
  rw [hinfo]
  simp [hread, habs]

theorem handle_audio_429_iff (env : Env) (message : Message) (task_type : TaskType) :
    ((handle_audio_message env message task_type).response.status = 429 ↔
      (Effect.whisperCall task_type ∈ (handle_audio_message env message task_type).effects ∧
        env.whisper = .rateLimited)) := by
  cases hinfo : AudioFileInfo.from_message message with
  | none =>
      rw [handle_audio_message_eq_none env message task_type hinfo]
      simp [ok200]
  | some audio_info =>
      cases hread : env.getItemFails1 with
      | true =>
          rw [handle_audio_message_eq_readfail env message task_type audio_info hinfo hread]
          exact gateStage_429_iff _ _ _ _ (fun t => by simp)
      | false =>
          cases hg : get_item env.table audio_info.unique_id task_type with
          | Text stored =>
              rw [handle_audio_message_eq_hit env message task_type audio_info stored
                hinfo hread hg]
              simp [ok200]
          | Exists =>
              rw [handle_audio_message_eq_exists env message task_type audio_info
                hinfo hread hg]
              exact gateStage_429_iff _ _ _ _ (fun t => by simp)
          | None =>
              rw [handle_audio_message_eq_absent env message task_type audio_info
                hinfo hread hg]
              exact gateStage_429_iff _ _ _ _ (fun t => by simp)

theorem gateStage_status_cases (env : Env) (audio_info : AudioFileInfo)
    (task_type : TaskType) (effs : List Effect) :
    (gateStage env audio_info task_type effs).response.status = 200 ∨
      (gateStage env audio_info task_type effs).response.status = 429 := by
  unfold gateStage
  split
  · left; rfl
  · split
    · left; rfl
    · split
      · left; rfl
      · exact transcribeStage_status_cases _ _ _ _

theorem handle_audio_status_cases (env : Env) (message : Message) (task_type : TaskType) :
    (handle_audio_message env message task_type).response.status = 200 ∨
      (handle_audio_message env message task_type).response.status = 429 := by
  cases hinfo : AudioFileInfo.from_message message with
  | none =>
      rw [handle_audio_message_eq_none env message task_type hinfo]
      left; rfl
  | some audio_info =>
      cases hread : env.getItemFails1 with
      | true =>
          rw [handle_audio_message_eq_readfail env message task_type audio_info hinfo hread]
          exact gateStage_status_cases _ _ _ _
      | false =>
          cases hg : get_item env.table audio_info.unique_id task_type with
          | Text stored =>
              rw [handle_audio_message_eq_hit env message task_type audio_info stored
                hinfo hread hg]
              left; rfl
          | Exists =>
              rw [handle_audio_message_eq_exists env message task_type audio_info
                hinfo hread hg]
              exact gateStage_status_cases _ _ _ _
          | None =>
              rw [handle_audio_message_eq_absent env message task_type audio_info
                hinfo hread hg]
              exact gateStage_status_cases _ _ _ _

theorem summarizeStep_status (env : Env) (method : SummarizeMethod) (translation : String)
    (effs : List Effect) (table : Table) :
    (summarizeStep env method translation effs table).response.status = 200 := by
  unfold summarizeStep
  split <;> rfl

theorem summarizeAcquireStage_status (env : Env) (audio_info : AudioFileInfo)
    (method : SummarizeMethod) (effs : List Effect) :
    (summarizeAcquireStage env audio_info method effs).response.status = 200 := by
  unfold summarizeAcquireStage
  split
  · rfl
  · split
    · rfl
    · split
      · exact summarizeStep_status _ _ _ _ _
      · rfl
      · rfl

theorem handle_summarization_status (env : Env) (message : Message)
    (method : SummarizeMethod) :
    (handle_summarization env message method).response.status = 200 := by
  unfold handle_summarization
  split
  · rfl
  · split
    · exact summarizeStep_status _ _ _ _ _
    · exact summarizeAcquireStage_status _ _ _ _

/-! ## C1: cache hit never calls the paid API -/

/-- C1: for every audio request whose (content_id, Transcribe) pair has
a Found cache entry (the DynamoDB read succeeds and returns the stored
text), the orchestrator replies with the stored text verbatim, answers
200, leaves the table unchanged, and performs no download and no
transcription call. -/
theorem cache_hit_no_paid_call (env : Env) (message : Message)
    (audio_info : AudioFileInfo) (stored : String)
    (hinfo : AudioFileInfo.from_message message = some audio_info)
    (hread : env.getItemFails1 = false)
    (hhit : get_item env.table audio_info.unique_id .Transcribe = .Text stored) :
    handle_audio_message env message .Transcribe =
      { response := ok200,
        effects := [.sendChatAction, .cacheGet audio_info.unique_id .Transcribe,
          .reply stored],
        table := env.table } ∧
    (∀ t, Effect.whisperCall t ∉ (handle_audio_message env message .Transcribe).effects) ∧
    (∀ f, Effect.downloadFile f ∉ (handle_audio_message env message .Transcribe).effects) ∧
    (∀ f, Effect.getFile f ∉ (handle_audio_message env message .Transcribe).effects) := by
  have hmain := handle_audio_message_eq_hit env message .Transcribe audio_info stored
    hinfo hread hhit
  refine ⟨hmain, ?_, ?_, ?_⟩ <;> (intro x; rw [hmain]; simp)

def msg1 : Message :=
  .mk none (some { file_id := "fid1", unique_id := "uid1", duration := 42, size := 50000 })
    none none none none

def env1 : Env :=
  { table := [{ id := "uid1", attrs := [("transcribe", "hello")], expires_at := 999 }],
    getItemFails1 := false, getItemFails2 := false,
    getFile := .error "unused", downloadFile := .error "unused", ffmpeg := .error "unused",
    whisper := .rateLimited, keyResults := [], putFails := false, now := 0,
    escape := fun s => s }

/-- Witness for C1: a voice message whose unique id has a cached
transcription is answered from the cache alone. -/
theorem cache_hit_no_paid_call_witness :
    handle_audio_message env1 msg1 .Transcribe =
      { response := ok200,
        effects := [.sendChatAction,
          .cacheGet (AudioFileInfo.mk "fid1" "uid1" 42 50000).unique_id .Transcribe,
          .reply "hello"],
        table := env1.table } :=
  (cache_hit_no_paid_call env1 msg1 (AudioFileInfo.mk "fid1" "uid1" 42 50000) "hello"
    rfl rfl rfl).1

/-! ## C2: which failures produce a non-200 status -/

def msgC2 : Message :=
  .mk none (some { file_id := "f2", unique_id := "u2", duration := 10, size := 100 })
    none none none none

def envC2 : Env :=
  { table := [{ id := "u2", attrs := [("translate", "hi")], expires_at := 50 }],
    getItemFails1 := false, getItemFails2 := false,
    getFile := .error "unused", downloadFile := .error "unused", ffmpeg := .error "unused",
    whisper := .rateLimited,
    keyResults := [.error .RateLimitReached],
    putFails := false, now := 0, escape := fun s => s }

/-- C2 counterexample: a summarization request whose failure is
RateLimitReached (the key pool is exhausted rate-limited) still answers
HTTP 200 with an error reply, contradicting the claim that every
RateLimitReached failure yields a non-200 status. -/
theorem rate_limit_status_counterexample :
    (summarize envC2.keyResults).1 = .error .RateLimitReached ∧
    (handle_summarization envC2 msgC2 .Default).response.status = 200 ∧
    Effect.reply ("Error: " ++ TranscriptionError.RateLimitReached.render) ∈
      (handle_summarization envC2 msgC2 .Default).effects := by
  refine ⟨rfl, rfl, by decide⟩

/-- C2 as amended: handle_summarization answers 200 on every path,
including a RateLimitReached failure of the transcription or
summarization API; only handle_audio_message distinguishes statuses,
answering 429 exactly when the transcription step is reached and the
Whisper exchange is rate-limited, and 200 in every other case. -/
theorem rate_limit_status_amended :
    (∀ env message method,
      (handle_summarization env message method).response.status = 200) ∧
    (∀ env message task_type,
      ((handle_audio_message env message task_type).response.status = 429 ↔
        (Effect.whisperCall task_type ∈
            (handle_audio_message env message task_type).effects ∧
          env.whisper = .rateLimited))) ∧
    (∀ env message task_type,
      (handle_audio_message env message task_type).response.status = 200 ∨
        (handle_audio_message env message task_type).response.status = 429) :=
  ⟨handle_summarization_status, handle_audio_429_iff, handle_audio_status_cases⟩

def msgRL : Message :=
  .mk none (some { file_id := "frl", unique_id := "url", duration := 5, size := 100 })
    none none none none

def envRL : Env :=
  { table := [], getItemFails1 := false, getItemFails2 := false,
    getFile := .ok { size := 100, path := "prl" },
    downloadFile := .ok [0], ffmpeg := .ok [1],
    whisper := .rateLimited, keyResults := [], putFails := false, now := 0,
    escape := fun s => s }

/-- Witness for C2 as amended: a cache-miss audio request whose Whisper
exchange is rate-limited is answered 429. -/
theorem rate_limit_status_amended_witness :
    (handle_audio_message envRL msgRL .Transcribe).response.status = 429 :=
  (rate_limit_status_amended.2.1 envRL msgRL .Transcribe).mpr ⟨by decide, rfl⟩

/-! ## C3: where the duration gate runs -/

def mfC3 : MediaFile := { file_id := "f3", unique_id := "u3", duration := 1801, size := 5000 }

def msgC3 : Message := .mk none (some mfC3) none none none none

def envC3 : Env :=
  { table := [], getItemFails1 := false, getItemFails2 := false,
    getFile := .ok { size := 5000, path := "p3" },
    downloadFile := .ok [0], ffmpeg := .ok [1],
    whisper := .rateLimited, keyResults := [], putFails := false, now := 0,
    escape := fun s => s }

/-- C3 counterexample: a voice message of 1801 seconds (above the
30-minute maximum) with no cache entry IS downloaded: the get-file and
download-file calls appear in the trace, contradicting the claim that
the duration gate precedes any download. -/
theorem gate_order_counterexample :
    AudioFileInfo.from_message msgC3 = some mfC3.info ∧
    mfC3.info.duration > MAX_DURATION * 60 ∧
    Effect.getFile "f3" ∈ (handle_audio_message envC3 msgC3 .Transcribe).effects ∧
    Effect.downloadFile "f3" ∈ (handle_audio_message envC3 msgC3 .Transcribe).effects := by
  refine ⟨rfl, by decide, by decide, by decide⟩

theorem gateStage_no_whisper_overlong (env : Env) (audio_info : AudioFileInfo)
    (task_type : TaskType) (effs : List Effect)
    (hnw : ∀ t, Effect.whisperCall t ∉ effs)
    (hdur : audio_info.duration > MAX_DURATION * 60) :
    ∀ t, Effect.whisperCall t ∉ (gateStage env audio_info task_type effs).effects := by
  intro t
  unfold gateStage
  split
  · intro hmem
    simp at hmem
    exact absurd hmem (hnw t)
  · split
    · rename_i dlEffs e heq
      intro hmem
      simp at hmem
      rcases hmem with hmem | hmem
      · exact absurd hmem (hnw t)
      · exact absurd hmem (whisperCall_not_mem_of_dl env audio_info dlEffs _ heq t)
    · rename_i dlEffs flac mime duration heq
      have hd : duration = audio_info.duration :=
        download_audio_duration env audio_info flac mime duration (by rw [heq])
      rw [if_pos (by rw [hd]; exact hdur)]
      intro hmem
      simp at hmem
      rcases hmem with hmem | hmem
      · exact absurd hmem (hnw t)
      · exact absurd hmem (whisperCall_not_mem_of_dl env audio_info dlEffs _ heq t)

theorem gateStage_no_acquire_oversize (env : Env) (audio_info : AudioFileInfo)
    (task_type : TaskType) (effs : List Effect)
    (hng : ∀ f, Effect.getFile f ∉ effs) (hnd : ∀ f, Effect.downloadFile f ∉ effs)
    (hsz : audio_info.size > MAX_FILE_SIZE * 1024 * 1024) :
    (∀ f, Effect.getFile f ∉ (gateStage env audio_info task_type effs).effects) ∧
    (∀ f, Effect.downloadFile f ∉ (gateStage env audio_info task_type effs).effects) := by
  unfold gateStage
  rw [if_pos hsz]
  constructor
  · intro f hmem
    simp at hmem
    exact absurd hmem (hng f)
  · intro f hmem
    simp at hmem
    exact absurd hmem (hnd f)

/-- C3 as amended: only the size gate runs before acquisition; the
duration gate runs after download and transcode but before the
transcription call.  So for over-duration media the bytes are
downloaded yet the paid transcription API is never invoked, and for
over-size media nothing is downloaded at all; the cache lookup runs
before both gates. -/
theorem gate_order_amended :
    (∀ env message audio_info task_type,
      AudioFileInfo.from_message message = some audio_info →
      audio_info.duration > MAX_DURATION * 60 →
      ∀ t, Effect.whisperCall t ∉ (handle_audio_message env message task_type).effects) ∧
    (∀ env message audio_info task_type,
      AudioFileInfo.from_message message = some audio_info →
      audio_info.size > MAX_FILE_SIZE * 1024 * 1024 →
      (∀ f, Effect.getFile f ∉ (handle_audio_message env message task_type).effects) ∧
      (∀ f, Effect.downloadFile f ∉ (handle_audio_message env message task_type).effects)) := by
  constructor
  · intro env message audio_info task_type hinfo hdur t
    cases hread : env.getItemFails1 with
    | true =>
        rw [handle_audio_message_eq_readfail env message task_type audio_info hinfo hread]
        exact gateStage_no_whisper_overlong env audio_info task_type _
          (fun t2 => by simp) hdur t
    | false =>
        cases hg : get_item env.table audio_info.unique_id task_type with
        | Text stored =>
            rw [handle_audio_message_eq_hit env message task_type audio_info stored
              hinfo hread hg]
            simp
        | Exists =>
            rw [handle_audio_message_eq_exists env message task_type audio_info
              hinfo hread hg]
            exact gateStage_no_whisper_overlong env audio_info task_type _
              (fun t2 => by simp) hdur t
        | None =>
            rw [handle_audio_message_eq_absent env message task_type audio_info
              hinfo hread hg]
            exact gateStage_no_whisper_overlong env audio_info task_type _
              (fun t2 => by simp) hdur t
  · intro env message audio_info task_type hinfo hsz
    cases hread : env.getItemFails1 with
    | true =>
        rw [handle_audio_message_eq_readfail env message task_type audio_info hinfo hread]
        exact gateStage_no_acquire_oversize env audio_info task_type _
          (fun f => by simp) (fun f => by simp) hsz
    | false =>
        cases hg : get_item env.table audio_info.unique_id task_type with
        | Text stored =>
            rw [handle_audio_message_eq_hit env message task_type audio_info stored
              hinfo hread hg]
            constructor <;> (intro f; simp)
        | Exists =>
            rw [handle_audio_message_eq_exists env message task_type audio_info
              hinfo hread hg]
            exact gateStage_no_acquire_oversize env audio_info task_type _
              (fun f => by simp) (fun f => by simp) hsz
        | None =>
            rw [handle_audio_message_eq_absent env message task_type audio_info
              hinfo hread hg]
            exact gateStage_no_acquire_oversize env audio_info task_type _
              (fun f => by simp) (fun f => by simp) hsz

def mfW3 : MediaFile := { file_id := "fw3", unique_id := "uw3", duration := 2000, size := 700 }

def msgW3 : Message := .mk none (some mfW3) none none none none

def envW3 : Env :=
  { table := [], getItemFails1 := false, getItemFails2 := false,
    getFile := .ok { size := 700, path := "pw3" },
    downloadFile := .ok [0], ffmpeg := .ok [1],
    whisper := .rateLimited, keyResults := [], putFails := false, now := 0,
    escape := fun s => s }

/-- Witness for C3 as amended: a 2000-second voice message never
reaches the transcription call. -/
theorem gate_order_amended_witness :
    Effect.whisperCall .Transcribe ∉
      (handle_audio_message envW3 msgW3 .Transcribe).effects :=
  gate_order_amended.1 envW3 msgW3 mfW3.info .Transcribe rfl (by decide) .Transcribe

/-! ## C7: update over insert in the cache population -/

/-- C7: the population step chooses update over insert: with a row
present for the content id but lacking the requested column, smart_put
updates that column in place and refreshes the TTL to now + 7 days;
with no row it inserts; hence two smart_put calls with different task
types on the same content id yield one row holding both columns under
the single refreshed expiry of the second call, not two rows. -/
theorem cache_update_over_insert :
    (∀ (table : Table) (uid : String) (tt : TaskType) (text : String) (now : Int),
      get_item table uid tt = .Exists →
      smart_put table false uid tt text now =
        (append_attribute table uid tt text now, .cacheUpdate uid tt text)) ∧
    (∀ (table : Table) (uid : String) (tt : TaskType) (text : String) (now : Int),
      get_item table uid tt = .None →
      smart_put table false uid tt text now =
        ((add_item table
            { text := text, unique_file_id := uid, task_type := tt.toStr,
              expires_at := now + EXPIRATION_SECONDS }).toOption.getD table,
          .cachePut
            { text := text, unique_file_id := uid, task_type := tt.toStr,
              expires_at := now + EXPIRATION_SECONDS })) ∧
    (∀ (uid x y : String) (now1 now2 : Int),
      (smart_put [] false uid .Transcribe x now1).1 =
        [{ id := uid, attrs := [("transcribe", x)],
           expires_at := now1 + EXPIRATION_SECONDS }] ∧
      (smart_put (smart_put [] false uid .Transcribe x now1).1
          false uid .Translate y now2).1 =
        [{ id := uid, attrs := [("transcribe", x), ("translate", y)],
           expires_at := now2 + EXPIRATION_SECONDS }]) := by
  refine ⟨?_, ?_, ?_⟩
  · intro table uid tt text now h
    unfold smart_put
    simp [h]
  · intro table uid tt text now h
    unfold smart_put
    simp [h]
  · intro uid x y now1 now2
    have h1 : (smart_put [] false uid .Transcribe x now1).1 =
        [{ id := uid, attrs := [("transcribe", x)],
           expires_at := now1 + EXPIRATION_SECONDS }] := rfl
    refine ⟨h1, ?_⟩
    rw [h1]
    have h2 : get_item
        [{ id := uid, attrs := [("transcribe", x)],
           expires_at := now1 + EXPIRATION_SECONDS }] uid .Translate = .Exists := by
      unfold get_item
      simp [TaskType.toStr, List.lookup]
    unfold smart_put
    simp only [Bool.false_eq_true, if_false, h2]
    unfold append_attribute
    simp [TaskType.toStr, setAttr]

/-- Witness for C7: a row holding only the transcribe column is updated
in place, not re-inserted, when the translate result arrives. -/
theorem cache_update_over_insert_witness :
    get_item [{ id := "u7", attrs := [("transcribe", "x")], expires_at := 5 }]
      "u7" .Translate = .Exists ∧
    smart_put [{ id := "u7", attrs := [("transcribe", "x")], expires_at := 5 }]
        false "u7" .Translate "y" 77 =
      (append_attribute ([{ id := "u7", attrs := [("transcribe", "x")], expires_at := 5 }] : Table)
          "u7" .Translate "y" 77,
        .cacheUpdate "u7" .Translate "y") :=
  ⟨rfl,
    cache_update_over_insert.1
      [{ id := "u7", attrs := [("transcribe", "x")], expires_at := 5 }]
      "u7" .Translate "y" 77 rfl⟩

/-! ## C8: the insert is an unconditional put -/

/-- C8 counterexample: add_item on a table already holding a row for the
content id succeeds — no duplicate-key failure — and silently replaces
the row (the transcribe column is gone), contradicting the claim that
the insert fails on duplicates rather than overwriting. -/
theorem put_new_counterexample :
    add_item [{ id := "u8", attrs := [("transcribe", "old")], expires_at := 100 }]
        { text := "y", unique_file_id := "u8", task_type := "translate",
          expires_at := 200 } =
      .ok [{ id := "u8", attrs := [("translate", "y")], expires_at := 200 }] ∧
    add_item [{ id := "u8", attrs := [("transcribe", "old")], expires_at := 100 }]
        { text := "y", unique_file_id := "u8", task_type := "translate",
          expires_at := 200 } ≠
      .error .conditionalCheckFailed := by
  refine ⟨rfl, by decide⟩

/-- C8 as amended: add_item carries no condition expression, so it never
fails a duplicate-key check: it always succeeds, and when a row already
exists it replaces that row wholesale (the race loser silently
overwrites).  Store write failures are swallowed by the orchestrator:
with a failing write the populate stage still answers 200 with the
same effect trace (reply included), only the table is left unchanged. -/
theorem put_new_amended :
    (∀ table item, ∃ t, add_item table item = .ok t) ∧
    (∀ table item, (table.find? (fun r => r.id == item.unique_file_id)).isSome = true →
      add_item table item = .ok (table.map (fun r =>
        if r.id == item.unique_file_id then
          { id := item.unique_file_id, attrs := [(item.task_type, item.text)],
            expires_at := item.expires_at }
        else r))) ∧
    (∀ (env : Env) (audio_info : AudioFileInfo) (task_type : TaskType)
        (transcriptionOpt : Option String) (effs : List Effect),
      (populateStage { env with putFails := true }
          audio_info task_type transcriptionOpt effs).response = ok200 ∧
      (populateStage { env with putFails := true }
          audio_info task_type transcriptionOpt effs).table = env.table ∧
      (populateStage { env with putFails := true }
          audio_info task_type transcriptionOpt effs).effects =
        (populateStage { env with putFails := false }
          audio_info task_type transcriptionOpt effs).effects) := by
  refine ⟨?_, ?_, ?_⟩
  · intro table item
    exact ⟨_, rfl⟩
  · intro table item h
    obtain ⟨row, hrow⟩ := Option.isSome_iff_exists.mp h
    unfold add_item
    simp [hrow]
  · intro env audio_info task_type transcriptionOpt effs
    exact ⟨rfl, rfl, rfl⟩

/-- Witness for C8 as amended: the overwrite branch at a concrete
populated table. -/
theorem put_new_amended_witness :
    (List.find?
        (fun r : DBRow => r.id == ("w8" : String))
        ([{ id := "w8", attrs := [("transcribe", "t")], expires_at := 3 }] : Table)).isSome
      = true ∧
    add_item [{ id := "w8", attrs := [("transcribe", "t")], expires_at := 3 }]
        { text := "z", unique_file_id := "w8", task_type := "translate",
          expires_at := 9 } =
      .ok (([{ id := "w8", attrs := [("transcribe", "t")], expires_at := 3 }] : Table).map
        (fun r : DBRow =>
          if r.id == ("w8" : String) then
            { id := "w8", attrs := [("translate", "z")], expires_at := 9 }
          else r)) :=
  ⟨by decide,
    put_new_amended.2.1 [{ id := "w8", attrs := [("transcribe", "t")], expires_at := 3 }]
      { text := "z", unique_file_id := "w8", task_type := "translate", expires_at := 9 }
      (by decide)⟩

/-! ## C9: summaries are never cached -/

theorem handle_summarization_eq_none (env : Env) (message : Message)
    (method : SummarizeMethod) (h : AudioFileInfo.from_message message = none) :
    handle_summarization env message method =
      { response := ok200, effects := [.sendChatAction], table := env.table } := by
  unfold handle_summarization
  rw [h]

theorem handle_summarization_eq_hit (env : Env) (message : Message)
    (method : SummarizeMethod) (audio_info : AudioFileInfo) (translation : String)
    (hinfo : AudioFileInfo.from_message message = some audio_info)
    (hread : env.getItemFails1 = false)
    (hhit : get_item env.table audio_info.unique_id .Translate = .Text translation) :
    handle_summarization env message method =
      summarizeStep env method translation
        [.sendChatAction, .cacheGet audio_info.unique_id .Translate] env.table := by
  unfold handle_summarization
  rw [hinfo]
  simp [hread, hhit]

theorem handle_summarization_eq_readfail (env : Env) (message : Message)
    (method : SummarizeMethod) (audio_info : AudioFileInfo)
    (hinfo : AudioFileInfo.from_message message = some audio_info)
    (hread : env.getItemFails1 = true) :
    handle_summarization env message method =
      summarizeAcquireStage env audio_info method
        [.sendChatAction, .cacheGet audio_info.unique_id .Translate] := by
  unfold handle_summarization
  rw [hinfo]
  simp [hread]

theorem handle_summarization_eq_exists (env : Env) (message : Message)
    (method : SummarizeMethod) (audio_info : AudioFileInfo)
    (hinfo : AudioFileInfo.from_message message = some audio_info)
    (hread : env.getItemFails1 = false)
    (hex : get_item env.table audio_info.unique_id .Translate = .Exists) :
    handle_summarization env message method =
      summarizeAcquireStage env audio_info method
        [.sendChatAction, .cacheGet audio_info.unique_id .Translate] := by
  unfold handle_summarization
  rw [hinfo]
  simp [hread, hex]

theorem handle_summarization_eq_absent (env : Env) (message : Message)
    (method : SummarizeMethod) (audio_info : AudioFileInfo)
    (hinfo : AudioFileInfo.from_message message = some audio_info)
    (hread : env.getItemFails1 = false)
    (habs : get_item env.table audio_info.unique_id .Translate = .None) :
    handle_summarization env message method =
      summarizeAcquireStage env audio_info method
        [.sendChatAction, .cacheGet audio_info.unique_id .Translate] := by
  unfold handle_summarization
  rw [hinfo]
  simp [hread, habs]

theorem summarizeStep_effect_mem (env : Env) (method : SummarizeMethod)
    (translation : String) (effs : List Effect) (table : Table) :
    ∀ e ∈ (summarizeStep env method translation effs table).effects,
      e ∈ effs ∨ e = .chatCall method ∨ ∃ s, e = .reply s := by
  intro e he
  unfold summarizeStep at he
  split at he <;>
    (simp only [List.append_assoc, List.mem_append, List.mem_singleton] at he;
     rcases he with he | he | he
     · exact Or.inl he
     · exact Or.inr (Or.inl he)
     · exact Or.inr (Or.inr ⟨_, he⟩))

theorem summarizeAcquireStage_cache_effects (env : Env) (audio_info : AudioFileInfo)
    (method : SummarizeMethod) (effs : List Effect) :
    (∀ item : DBItem,
      Effect.cachePut item ∈ (summarizeAcquireStage env audio_info method effs).effects →
      (Effect.cachePut item ∈ effs ∨ item.task_type = "translate")) ∧
    (∀ uid tt text,
      Effect.cacheUpdate uid tt text ∈
          (summarizeAcquireStage env audio_info method effs).effects →
      Effect.cacheUpdate uid tt text ∈ effs) := by
  have hshape : ∀ e, e ∈ (summarizeAcquireStage env audio_info method effs).effects →
      e ∈ effs ∨ e = .getFile audio_info.file_id ∨ e = .downloadFile audio_info.file_id ∨
      e = .runFfmpeg ∨ e = .whisperCall .Translate ∨ e = .chatCall method ∨
      (∃ s, e = .reply s) ∨
      (∃ tr, e = .cachePut
        { text := tr, unique_file_id := audio_info.unique_id,
          task_type := TaskType.Translate.toStr,
          expires_at := env.now + EXPIRATION_SECONDS }) := by
    intro e he
    unfold summarizeAcquireStage at he
    split at he
    · rw [List.mem_append, List.mem_singleton] at he
      rcases he with he | he
      · exact Or.inl he
      · exact .inr <| .inr <| .inr <| .inr <| .inr <| .inr <| .inl ⟨_, he⟩
    · split at he
      · rename_i dlEffs err heq
        rw [List.mem_append, List.mem_append, List.mem_singleton] at he
        rcases he with (he | he) | he
        · exact Or.inl he
        · rcases download_audio_effect_shape env audio_info e (by rw [heq]; exact he)
            with h | h | h
          · exact .inr <| .inl h
          · exact .inr <| .inr <| .inl h
          · exact .inr <| .inr <| .inr <| .inl h
        · exact .inr <| .inr <| .inr <| .inr <| .inr <| .inr <| .inl ⟨_, he⟩
      · rename_i dlEffs r heq
        have hbase : ∀ x, x ∈ effs ++ dlEffs ++ [Effect.whisperCall TaskType.Translate] →
            x ∈ effs ∨ x = .getFile audio_info.file_id ∨
            x = .downloadFile audio_info.file_id ∨ x = .runFfmpeg ∨
            x = .whisperCall .Translate := by
          intro x hx
          rw [List.mem_append, List.mem_append, List.mem_singleton] at hx
          rcases hx with (hx | hx) | hx
          · exact Or.inl hx
          · rcases download_audio_effect_shape env audio_info x (by rw [heq]; exact hx)
              with h | h | h
            · exact .inr <| .inl h
            · exact .inr <| .inr <| .inl h
            · exact .inr <| .inr <| .inr <| .inl h
          · exact .inr <| .inr <| .inr <| .inr hx
        split at he
        · rcases summarizeStep_effect_mem _ _ _ _ _ _ he with he | he | ⟨s, he⟩
          · rw [List.mem_append, List.mem_singleton] at he
            rcases he with he | he
            · rcases hbase e he with h | h | h | h | h
              · exact Or.inl h
              · exact .inr <| .inl h
              · exact .inr <| .inr <| .inl h
              · exact .inr <| .inr <| .inr <| .inl h
              · exact .inr <| .inr <| .inr <| .inr <| .inl h
            · exact .inr (.inr (.inr (.inr (.inr (.inr (.inr ⟨_, he⟩))))))
          · exact .inr <| .inr <| .inr <| .inr <| .inr <| .inl he
          · exact .inr <| .inr <| .inr <| .inr <| .inr <| .inr <| .inl ⟨s, he⟩
        · rw [List.mem_append, List.mem_singleton] at he
          rcases he with he | he
          · rcases hbase e he with h | h | h | h | h
            · exact Or.inl h
            · exact .inr <| .inl h
            · exact .inr <| .inr <| .inl h
            · exact .inr <| .inr <| .inr <| .inl h
            · exact .inr <| .inr <| .inr <| .inr <| .inl h
          · exact .inr <| .inr <| .inr <| .inr <| .inr <| .inr <| .inl ⟨_, he⟩
        · rw [List.mem_append, List.mem_singleton] at he
          rcases he with he | he
          · rcases hbase e he with h | h | h | h | h
            · exact Or.inl h
            · exact .inr <| .inl h
            · exact .inr <| .inr <| .inl h
            · exact .inr <| .inr <| .inr <| .inl h
            · exact .inr <| .inr <| .inr <| .inr <| .inl h
          · exact .inr <| .inr <| .inr <| .inr <| .inr <| .inr <| .inl ⟨_, he⟩
  constructor
  · intro item he
    rcases hshape _ he with h | h | h | h | h | h | ⟨s, h⟩ | ⟨tr, h⟩
    · exact Or.inl h
    · simp at h
    · simp at h
    · simp at h
    · simp at h
    · simp at h
    · simp at h
    · simp only [Effect.cachePut.injEq] at h
      rw [h]
      exact Or.inr rfl
  · intro uid tt text he
    rcases hshape _ he with h | h | h | h | h | h | ⟨s, h⟩ | ⟨tr, h⟩ <;>
      first
        | exact h
        | simp at h

/-- C9 as amended: summaries are never written to the cache — every
cache insert a summarization request performs carries the translate
task type (the freshly produced translation of src/src/main.rs lines
532-541), and no update is ever performed; in particular there is no
summarize-keyed cache entry, for either persona. -/
theorem summaries_not_cached :
    ∀ (env : Env) (message : Message) (method : SummarizeMethod),
      (∀ item : DBItem,
        Effect.cachePut item ∈ (handle_summarization env message method).effects →
        item.task_type = "translate") ∧
      (∀ uid tt text,
        Effect.cacheUpdate uid tt text ∉
          (handle_summarization env message method).effects) := by
  intro env message method
  cases hinfo : AudioFileInfo.from_message message with
  | none =>
      rw [handle_summarization_eq_none env message method hinfo]
      constructor
      · intro item he
        simp at he
      · intro uid tt text he
        simp at he
  | some audio_info =>
      have hacq : ∀ (hred : handle_summarization env message method =
          summarizeAcquireStage env audio_info method
            [.sendChatAction, .cacheGet audio_info.unique_id .Translate]),
          (∀ item : DBItem,
            Effect.cachePut item ∈ (handle_summarization env message method).effects →
            item.task_type = "translate") ∧
          (∀ uid tt text,
            Effect.cacheUpdate uid tt text ∉
              (handle_summarization env message method).effects) := by
        intro hred
        rw [hred]
        constructor
        · intro item he
          rcases (summarizeAcquireStage_cache_effects env audio_info method _).1 item he
            with h | h
          · simp at h
          · exact h
        · intro uid tt text he
          have h := (summarizeAcquireStage_cache_effects env audio_info method _).2 uid tt text he
          simp at h
      cases hread : env.getItemFails1 with
      | true =>
          exact hacq (handle_summarization_eq_readfail env message method audio_info
            hinfo hread)
      | false =>
          cases hg : get_item env.table audio_info.unique_id .Translate with
          | Text translation =>
              rw [handle_summarization_eq_hit env message method audio_info translation
                hinfo hread hg]
              constructor
              · intro item he
                rcases summarizeStep_effect_mem _ _ _ _ _ _ he with h | h | ⟨s, h⟩ <;>
                  simp at h
              · intro uid tt text he
                rcases summarizeStep_effect_mem _ _ _ _ _ _ he with h | h | ⟨s, h⟩ <;>
                  simp at h
          | Exists =>
              exact hacq (handle_summarization_eq_exists env message method audio_info
                hinfo hread hg)
          | None =>
              exact hacq (handle_summarization_eq_absent env message method audio_info
                hinfo hread hg)

def msg9 : Message :=
  .mk none (some { file_id := "f9", unique_id := "u9", duration := 7, size := 80 })
    none none none none

def env9 : Env :=
  { table := [{ id := "u9", attrs := [("translate", "hello")], expires_at := 50 }],
    getItemFails1 := false, getItemFails2 := false,
    getFile := .error "unused", downloadFile := .error "unused", ffmpeg := .error "unused",
    whisper := .rateLimited, keyResults := [.ok "a summary"],
    putFails := false, now := 0, escape := fun s => s }

/-- C9 counterexample: a successful Default summarization and a
successful Caveman summarization of the same cached content leave the
cache untouched — no summarize-keyed entry is ever stored, and both
runs invoke the summarization API — contradicting the claim that the
two personas are stored as distinct cache entries. -/
theorem summary_cache_counterexample :
    (handle_summarization env9 msg9 .Default).effects =
      [.sendChatAction, .cacheGet "u9" .Translate, .chatCall .Default,
        .reply "_a summary_"] ∧
    (handle_summarization env9 msg9 .Default).table = env9.table ∧
    (handle_summarization env9 msg9 .Caveman).effects =
      [.sendChatAction, .cacheGet "u9" .Translate, .chatCall .Caveman,
        .reply "_a summary_"] ∧
    (handle_summarization env9 msg9 .Caveman).table = env9.table := by
  exact ⟨rfl, rfl, rfl, rfl⟩

def segW9 : OpenAIWhisperSegment :=
  { text := "hello", avg_logprob := -0.2, no_speech_prob := 0.1 }

def mfW9 : MediaFile := { file_id := "fw9", unique_id := "uw9", duration := 4, size := 60 }

def msgW9 : Message := .mk none (some mfW9) none none none none

def envW9 : Env :=
  { table := [], getItemFails1 := false, getItemFails2 := false,
    getFile := .ok { size := 60, path := "pw9" },
    downloadFile := .ok [0], ffmpeg := .ok [1],
    whisper := .success [segW9], keyResults := [.ok "sum"],
    putFails := false, now := 0, escape := fun s => s }

def itemW9 : DBItem :=
  { text := "hello", unique_file_id := "uw9", task_type := "translate",
    expires_at := 604800 }

/-- Witness for C9 as amended: a cache-miss summarization stores exactly
one item, and it carries the translate task type. -/
theorem summaries_not_cached_witness :
    Effect.cachePut itemW9 ∈ (handle_summarization envW9 msgW9 .Default).effects ∧
    itemW9.task_type = "translate" := by
  have hseg : segmentsText [segW9] = "hello" := by
    unfold segmentsText
    simp only [List.foldl_cons, List.foldl_nil]
    rw [if_neg (by simp [segW9]; norm_num)]
    rfl
  have hW : transcribeOutcome envW9.whisper = .ok (some "hello") := by
    show transcribeOutcome (.success [segW9]) = _
    simp only [transcribeOutcome, collectSegments]
    rw [hseg]
    rfl
  have hred : handle_summarization envW9 msgW9 .Default =
      summarizeAcquireStage envW9 mfW9.info .Default
        [.sendChatAction, .cacheGet mfW9.info.unique_id .Translate] :=
    handle_summarization_eq_absent envW9 msgW9 .Default mfW9.info rfl rfl rfl
  have heff : (handle_summarization envW9 msgW9 .Default).effects =
      [.sendChatAction, .cacheGet "uw9" .Translate, .getFile "fw9", .downloadFile "fw9",
        .runFfmpeg, .whisperCall .Translate, .cachePut itemW9,
        .chatCall .Default, .reply "_sum_"] := by
    rw [hred]
    unfold summarizeAcquireStage summarizeStep
    rw [if_neg (by decide)]
    have hdl : download_audio envW9 mfW9.info =
        ([.getFile "fw9", .downloadFile "fw9", .runFfmpeg],
          .ok ([1], "audio/flac", 4)) := rfl
    simp only [hdl, hW]
    rfl
  have hmem : Effect.cachePut itemW9 ∈ (handle_summarization envW9 msgW9 .Default).effects := by
    rw [heff]
    decide
  exact ⟨hmem, (summaries_not_cached envW9 msgW9 .Default).1 itemW9 hmem⟩

/-! ## C10: which media kinds trigger spontaneous transcription -/

/-- C10: a message with no bot command triggers automatic transcription
exactly when it carries a voice note or a video note; a plain video or
audio-file attachment without a command is acknowledged with an empty
200 and no processing, even though has_audio_content (the predicate of
the reply-triggered commands) accepts all four media kinds — a reply
/transcribe command on such a message is processed. -/
theorem spontaneous_trigger_policy :
    (∀ (env : Env) (message : Message), message.voice = none →
      message.video_note = none →
      handler env message none =
        { response := ok200, effects := [], table := env.table }) ∧
    (∀ (env : Env) (message : Message),
      message.voice.isSome = true ∨ message.video_note.isSome = true →
      handler env message none = handle_audio_message env message .Transcribe) ∧
    (∀ (env : Env) (message replyMsg : Message), message.text.isSome = true →
      message.reply_to_message = some replyMsg → has_audio_content replyMsg = true →
      handler env message (some .Transcribe) =
        handle_audio_message env replyMsg .Transcribe) ∧
    (∀ m : Message, m.video.isSome = true → has_audio_content m = true) ∧
    (∀ m : Message, m.audio.isSome = true → has_audio_content m = true) := by
  refine ⟨?_, ?_, ?_, ?_, ?_⟩
  · intro env message h1 h2
    cases htext : message.text with
    | none =>
        unfold handler
        rw [htext]
        simp [h1, h2]
    | some t =>
        unfold handler
        rw [htext]
        simp [h1, h2]
  · intro env message hvv
    cases htext : message.text with
    | none =>
        unfold handler
        rw [htext]
        rcases hvv with h | h <;> simp [h]
    | some t =>
        unfold handler
        rw [htext]
        rcases hvv with h | h <;> simp [h]
  · intro env message replyMsg htext hrep hac
    obtain ⟨t, ht⟩ := Option.isSome_iff_exists.mp htext
    unfold handler
    rw [ht]
    unfold handle_command
    rw [hrep]
    simp [hac]
  · intro m h
    cases m with
    | mk t v vn vid aud r =>
        simp only [Message.video] at h
        simp [has_audio_content, Message.voice, Message.video_note, Message.video,
          Message.audio, h]
  · intro m h
    cases m with
    | mk t v vn vid aud r =>
        simp only [Message.audio] at h
        simp [has_audio_content, Message.voice, Message.video_note, Message.video,
          Message.audio, h]

def mfW10 : MediaFile := { file_id := "fv", unique_id := "uv", duration := 3, size := 9 }

def msgW10 : Message := .mk none none none (some mfW10) none none

def envW10 : Env :=
  { table := [], getItemFails1 := false, getItemFails2 := false,
    getFile := .error "unused", downloadFile := .error "unused", ffmpeg := .error "unused",
    whisper := .rateLimited, keyResults := [], putFails := false, now := 0,
    escape := fun s => s }

def msgW10r : Message := .mk (some "/transcribe") none none none none (some msgW10)

/-- Witness for C10: a spontaneous message carrying only a plain video
is acknowledged idle, although the same message satisfies
has_audio_content and so is processed when targeted by a reply
/transcribe command. -/
theorem spontaneous_trigger_policy_witness :
    handler envW10 msgW10 none =
      { response := ok200, effects := [], table := envW10.table } ∧
    has_audio_content msgW10 = true ∧
    handler envW10 msgW10r (some .Transcribe) =
      handle_audio_message envW10 msgW10 .Transcribe :=
  ⟨spontaneous_trigger_policy.1 envW10 msgW10 rfl rfl,
    spontaneous_trigger_policy.2.2.2.1 msgW10 rfl,
    spontaneous_trigger_policy.2.2.1 envW10 msgW10r msgW10 rfl rfl
      (spontaneous_trigger_policy.2.2.2.1 msgW10 rfl)⟩

end DuckTranscriber
